import Mathlib

/-!
Shallow embedding of the SoundWave backend (src/app.py) acquisition logic:
the search endpoint with its in-memory cache, the playlist generator, the
trending endpoint, the download pipeline over a modelled file system, the
stream endpoint and the info endpoint.

Modelling conventions:
- yt-dlp subprocess results are modelled per consumption style.  Endpoints
  that parse stdout as JSON lines (search, playlist, trending) receive a
  `JsonRun` whose `stdout` field is the list of lines after
  `.strip().split("\n")`, each line abstracted as empty, malformed
  (json.loads raises JSONDecodeError) or a parsed record.  The raw-string
  truthiness test `not result.stdout` at app.py:110 is carried as the
  separate field `stdoutTruthy` (a raw empty string corresponds to
  `stdoutTruthy = false` together with `stdout = [.empty]`).
- Endpoints that read stdout as plain text (get-title, extraction, get-url)
  receive a `TextRun` with the raw string.
- get_info parses the whole stdout as one JSON document; its input carries
  `Option InfoRecord`, `none` meaning json.loads raises.
- Python dicts (the search cache) and the cache directory are association
  lists with first-match lookup; insertion prepends, so the newest binding
  shadows older ones, matching dict overwrite semantics.
- Python ints are `Int`; `//` and `%` on a positive divisor are `Int.ediv`
  and `Int.emod` (floor semantics agree for positive divisors).
-/

namespace SoundWave

/-- One line of yt-dlp JSON-lines output after parsing: the subset of keys
app.py reads via `data.get`.  `none` means the key is absent or JSON null. -/
structure RawRecord where
  id : Option String
  title : Option String
  uploader : Option String
  duration : Option Int
  thumbnail : Option String
  view_count : Option Int
deriving DecidableEq, Repr

/-- A line of stdout as consumed by the JSON-lines loops: skipped if empty
(`if not line: continue`), skipped if json.loads raises, else a record. -/
inductive Line
  | empty
  | malformed
  | record (r : RawRecord)
deriving DecidableEq, Repr

/-- Result of run_ytdlp for JSON-lines consumers (search, playlist, trending). -/
structure JsonRun where
  returncode : Int
  stdoutTruthy : Bool
  stdout : List Line
  stderr : String
deriving DecidableEq, Repr

/-- Result of run_ytdlp for plain-text consumers (get-title, extraction, get-url). -/
structure TextRun where
  returncode : Int
  stdout : String
  stderr : String
deriving DecidableEq, Repr

/-- Outcome of the run_ytdlp call inside search: the subprocess may raise
TimeoutExpired or FileNotFoundError, both caught by search. -/
inductive Backend
  | timeout
  | notFound
  | run (r : JsonRun)
deriving DecidableEq, Repr

/-- Python `str.strip()`: drop leading and trailing whitespace. -/
def pyStrip (s : String) : String :=
  String.mk (((s.toList.dropWhile Char.isWhitespace).reverse.dropWhile
    Char.isWhitespace).reverse)

/-- Python f-string interpolation of a value that may be None
(`f"...{data.get('id')}"` renders None as "None"). -/
def pyStr : Option String → String
  | none => "None"
  | some s => s

/-- `f"{int(duration%60):02d}"`: zero-pad to two digits. -/
def twoDigit (m : Int) : String :=
  if m < 10 then "0" ++ toString m else toString m

/-- `f"{int(duration//60)}:{int(duration%60):02d}"`. -/
def durationStr (d : Int) : String :=
  toString (Int.ediv d 60) ++ ":" ++ twoDigit (Int.emod d 60)

/-- The song dict built by the search loop (app.py:124-133). -/
structure Song where
  id : Option String
  title : Option String
  artist : String
  duration : Int
  duration_str : String
  thumbnail : Option String
  view_count : Int
  url : String
deriving DecidableEq, Repr

/-- Build one search song from a parsed record; `duration` is already
`data.get("duration", 0) or 0`. -/
def mkSong (r : RawRecord) (duration : Int) : Song :=
  { id := r.id
    title := r.title
    artist := r.uploader.getD "Unknown Artist"
    duration := duration
    duration_str := if duration = 0 then "?" else durationStr duration
    thumbnail := r.thumbnail
    view_count := r.view_count.getD 0
    url := "https://www.youtube.com/watch?v=" ++ pyStr r.id }

/-- The search parsing loop (app.py:113-135): skip empty lines, skip lines
whose JSON parse raises, skip records with duration > 600, keep the rest in
order.  No deduplication is performed here. -/
def parseSongs : List Line → List Song
  | [] => []
  | .empty :: rest => parseSongs rest
  | .malformed :: rest => parseSongs rest
  | .record r :: rest =>
    let duration := r.duration.getD 0
    if duration > 600 then parseSongs rest
    else mkSong r duration :: parseSongs rest

/-- The JSON body `{"results": ..., "query": ...}` (app.py:137). -/
structure SearchResponse where
  results : List Song
  query : String
deriving DecidableEq, Repr

/-- The in-memory search cache: a Python dict keyed by `f"{query}_{limit}"`. -/
abbrev SearchCache := List (String × SearchResponse)

/-- Dict lookup: newest binding first. -/
def cacheGet : SearchCache → String → Option SearchResponse
  | [], _ => none
  | (k2, v) :: rest, k => if k2 = k then some v else cacheGet rest k

/-- Dict insertion: prepend, shadowing any older binding for the key. -/
def cacheSet (c : SearchCache) (k : String) (v : SearchResponse) : SearchCache :=
  (k, v) :: c

/-- `f"{query}_{limit}"` with query already stripped. -/
def searchKey (q : String) (lim : Int) : String :=
  pyStrip q ++ "_" ++ toString lim

/-- HTTP-level outcome of the search endpoint. -/
inductive SearchOutcome
  | badRequest
  | serverError (detail : String)
  | timedOut
  | toolMissing
  | ok (resp : SearchResponse)
deriving DecidableEq, Repr

/-- The search endpoint (app.py:86-144).  Returns the outcome, the updated
cache, and whether the backend was invoked.  Mirrors the code exactly:
empty stripped query is a 400; a cache hit returns the stored response
without a backend call; TimeoutExpired is a 504 and FileNotFoundError a
500; a non-zero exit with empty raw stdout is a 500 carrying stderr;
otherwise the parsed response is cached unconditionally and returned. -/
def search (cache : SearchCache) (q : String) (lim : Int) (b : Backend) :
    SearchOutcome × SearchCache × Bool :=
  if pyStrip q = "" then (.badRequest, cache, false)
  else
    match cacheGet cache (searchKey q lim) with
    | some resp => (.ok resp, cache, false)
    | none =>
      match b with
      | .timeout => (.timedOut, cache, true)
      | .notFound => (.toolMissing, cache, true)
      | .run r =>
        if r.returncode ≠ 0 ∧ r.stdoutTruthy = false then
          (.serverError r.stderr, cache, true)
        else
          (.ok ⟨parseSongs r.stdout, pyStrip q⟩,
            cacheSet cache (searchKey q lim) ⟨parseSongs r.stdout, pyStrip q⟩,
            true)

/-- Projection used to talk about the identifiers of a search outcome. -/
def SearchOutcome.resultIds : SearchOutcome → List (Option String)
  | .ok resp => resp.results.map Song.id
  | _ => []

/-- The song dict built by the playlist and trending loops (app.py:281-289,
325-333): no view_count key, artist default "Unknown", duration_str always
formatted (the loop body only runs when 60 < duration < 600). -/
structure CuratedSong where
  id : Option String
  title : Option String
  artist : String
  duration : Int
  duration_str : String
  thumbnail : Option String
  url : String
deriving DecidableEq, Repr

/-- Build one playlist/trending song from a parsed record. -/
def mkCurated (r : RawRecord) (duration : Int) : CuratedSong :=
  { id := r.id
    title := r.title
    artist := r.uploader.getD "Unknown"
    duration := duration
    duration_str := durationStr duration
    thumbnail := r.thumbnail
    url := "https://www.youtube.com/watch?v=" ++ pyStr r.id }

/-- The playlist/trending parsing loop (app.py:274-291, 318-335): skip empty
lines, skip lines whose parse raises (bare `except`), keep records with
60 < duration < 600. -/
def parseCurated : List Line → List CuratedSong
  | [] => []
  | .empty :: rest => parseCurated rest
  | .malformed :: rest => parseCurated rest
  | .record r :: rest =>
    let duration := r.duration.getD 0
    if 60 < duration ∧ duration < 600 then mkCurated r duration :: parseCurated rest
    else parseCurated rest

/-- The dedup loop of generate_playlist (app.py:294-299): `seen` is the set
of ids already kept; first occurrence wins. -/
def dedupGo (seen : List (Option String)) : List CuratedSong → List CuratedSong
  | [] => []
  | s :: rest =>
    if s.id ∈ seen then dedupGo seen rest
    else s :: dedupGo (s.id :: seen) rest

/-- Deduplicate by id keeping first occurrence. -/
def dedupById (l : List CuratedSong) : List CuratedSong :=
  dedupGo [] l

/-- Python list slicing `l[:n]` for an int n: nonnegative n takes the first
n elements; negative n drops the last -n. -/
def pySlice {α : Type} (l : List α) (n : Int) : List α :=
  if 0 ≤ n then l.take n.toNat else l.take ((l.length : Int) + n).toNat

/-- The JSON body `{"playlist": ..., "generated_from": ...}` (app.py:301). -/
structure PlaylistResponse where
  playlist : List CuratedSong
  generated_from : List String
deriving DecidableEq, Repr

/-- HTTP-level outcome of generate_playlist. -/
inductive PlaylistOutcome
  | badRequest
  | ok (resp : PlaylistResponse)
deriving DecidableEq, Repr

/-- The generate_playlist endpoint (app.py:251-301).  `runner` gives the
run_ytdlp result for each seed's `ytsearch5` call (modelled total: the
endpoint has no try/except around run_ytdlp itself).  Empty seeds is a 400;
otherwise the first three seeds are searched, results concatenated in seed
order, filtered by the 60 < duration < 600 band, deduplicated by id keeping
first occurrence, and truncated to `limit`.  The returncode of each run is
never inspected, matching the code. -/
def generate_playlist (runner : String → JsonRun) (seeds : List String)
    (limit : Int) : PlaylistOutcome :=
  if seeds = [] then .badRequest
  else
    let all_songs := (seeds.take 3).flatMap fun seed => parseCurated (runner seed).stdout
    .ok ⟨pySlice (dedupById all_songs) limit, seeds⟩

/-- Projections used to talk about playlist outcomes. -/
def PlaylistOutcome.playlistIds : PlaylistOutcome → List (Option String)
  | .ok resp => resp.playlist.map CuratedSong.id
  | _ => []

/-- Number of tracks in a playlist outcome. -/
def PlaylistOutcome.size : PlaylistOutcome → Nat
  | .ok resp => resp.playlist.length
  | _ => 0

/-- HTTP-level outcome of the trending endpoint. -/
inductive TrendingOutcome
  | toolMissing
  | ok (trendingSongs : List CuratedSong)
deriving DecidableEq, Repr

/-- The trending endpoint (app.py:304-339): a single fixed query; the
returncode is never inspected; stdout is parsed with the same
60 < duration < 600 band as the playlist loop.  Only FileNotFoundError is
caught (the toolMissing branch lives at the call boundary, so the model
takes the successful-run case). -/
def trending (r : JsonRun) : TrendingOutcome :=
  .ok (parseCurated r.stdout)

/-- The audio cache directory: path ↦ size in bytes, first match wins. -/
abbrev FileSys := List (String × Nat)

/-- Look up a file's size. -/
def fileSize : FileSys → String → Option Nat
  | [], _ => none
  | (p, n) :: rest, q => if p = q then some n else fileSize rest q

/-- `Path.exists()` on the modelled directory. -/
def fileExists (fs : FileSys) (p : String) : Bool :=
  (fileSize fs p).isSome

/-- `re.sub(r'[^\w\-_\. ]', '_', name)` restricted to ASCII word chars. -/
def keepChar (c : Char) : Bool :=
  c.isAlphanum || c = '_' || c = '-' || c = '.' || c = ' '

/-- sanitize_filename (app.py:79-80). -/
def sanitize_filename (s : String) : String :=
  String.mk (s.toList.map fun c => if keepChar c then c else '_')

/-- An invocation of the external tool, tagged by purpose: the --get-title
call, the extraction (-x) call, or a --get-url call (the latter is made
only by the stream endpoint, never by download). -/
inductive ExtCall
  | getTitle (videoId : String)
  | extract (videoId : String)
  | getUrl (videoId : String)
deriving DecidableEq, Repr

/-- HTTP-level outcome of the download endpoint. -/
inductive DownloadOutcome
  | cached (path downloadName : String)
  | downloaded (path downloadName : String)
  | failed (detail : String)
  | missingAfter
deriving DecidableEq, Repr

/-- The download endpoint (app.py:170-219).  Returns the outcome and the
list of external-tool calls made.  Mirrors the code: if the cache file
exists (the only validity check — no size threshold), serve it with no
external call; otherwise run --get-title then extraction; a non-zero
extraction exit is an immediate 500 with stderr (no fallback call of any
kind); on success re-check existence against the post-extraction file
system `fsAfter`. -/
def download_audio (fs : FileSys) (video_id : String)
    (titleRes extractRes : TextRun) (fsAfter : FileSys) :
    DownloadOutcome × List ExtCall :=
  let cache_file := video_id ++ ".mp3"
  if fileExists fs cache_file then
    (.cached cache_file (video_id ++ ".mp3"), [])
  else
    let title := sanitize_filename
      (if pyStrip titleRes.stdout = "" then video_id else pyStrip titleRes.stdout)
    let calls := [ExtCall.getTitle video_id, ExtCall.extract video_id]
    if extractRes.returncode ≠ 0 then
      (.failed extractRes.stderr, calls)
    else if fileExists fsAfter cache_file then
      (.downloaded cache_file (title ++ ".mp3"), calls)
    else
      (.missingAfter, calls)

/-- HTTP-level outcome of the stream endpoint. -/
inductive StreamOutcome
  | ok (stream_url videoId : String)
  | failed
deriving DecidableEq, Repr

/-- The stream endpoint (app.py:147-164): one --get-url call; non-zero exit
is a 500; otherwise the first line of stripped stdout is returned as the
stream URL. -/
def stream_audio (video_id : String) (r : TextRun) : StreamOutcome :=
  if r.returncode ≠ 0 then .failed
  else .ok (((pyStrip r.stdout).splitOn "\n").headD "") video_id

/-- The single JSON document read by get_info: the keys app.py reads.
`none` on an Option field means the key is absent. -/
structure InfoRecord where
  id : Option String
  title : Option String
  uploader : Option String
  duration : Option Int
  thumbnail : Option String
  description : Option String
  tags : Option (List String)
deriving DecidableEq, Repr

/-- run_ytdlp result as consumed by get_info: the whole stripped stdout is
fed to json.loads, `none` meaning the parse raises JSONDecodeError. -/
structure InfoRun where
  returncode : Int
  stdout : Option InfoRecord
  stderr : String
deriving DecidableEq, Repr

/-- The JSON body returned by get_info (app.py:238-246). -/
structure InfoResponse where
  id : Option String
  title : Option String
  artist : Option String
  duration : Option Int
  thumbnail : Option String
  description : String
  tags : List String
deriving DecidableEq, Repr

/-- HTTP-level outcome of get_info.  `uncaught` records that a raised
exception escapes the handler: get_info catches only FileNotFoundError, so
a JSONDecodeError from malformed stdout propagates past the boundary. -/
inductive InfoOutcome
  | ok (resp : InfoResponse)
  | failed
  | uncaught
deriving DecidableEq, Repr

/-- The get_info endpoint (app.py:222-248): non-zero exit is a 500;
otherwise the whole stdout is parsed as one JSON document with NO guard
around json.loads — a malformed document is an uncaught exception, unlike
the line loops of search/playlist/trending. -/
def get_info (r : InfoRun) : InfoOutcome :=
  if r.returncode ≠ 0 then .failed
  else
    match r.stdout with
    | none => .uncaught
    | some d =>
      .ok { id := d.id
            title := d.title
            artist := d.uploader
            duration := d.duration
            thumbnail := d.thumbnail
            description := (d.description.getD "").take 200
            tags := (d.tags.getD []).take 10 }

/-- A sample backend record with a given id and duration, used by concrete
witnesses. -/
def recWith (i : String) (d : Int) : RawRecord :=
  ⟨some i, some "t", some "u", some d, none, some 0⟩

/-! ## Helper lemmas about the search cache -/

/-- Looking up a key immediately after storing it returns the stored value. -/
theorem cacheGet_set_self (c : SearchCache) (k : String) (v : SearchResponse) :
    cacheGet (cacheSet c k v) k = some v := by
  simp [cacheGet, cacheSet]

/-- A cache hit short-circuits search: the stored response is returned, the
cache is unchanged, and the backend is not invoked. -/
theorem search_hit (c : SearchCache) (q : String) (lim : Int) (b : Backend)
    (resp : SearchResponse) (hq : pyStrip q ≠ "")
    (hget : cacheGet c (searchKey q lim) = some resp) :
    search c q lim b = (.ok resp, c, false) := by
  simp [search, hq, hget]

/-- A successful search implies the stripped query was non-empty. -/
theorem search_ok_strip_ne (c : SearchCache) (q : String) (lim : Int)
    (b : Backend) (resp : SearchResponse)
    (h : (search c q lim b).1 = .ok resp) : pyStrip q ≠ "" := by
  intro hq
  simp [search, hq] at h

/-- Cache miss, backend timeout: a 504 and no cache write. -/
theorem search_miss_timeout (c : SearchCache) (q : String) (lim : Int)
    (hq : pyStrip q ≠ "") (hmiss : cacheGet c (searchKey q lim) = none) :
    search c q lim .timeout = (.timedOut, c, true) := by
  simp [search, hq, hmiss]

/-- Cache miss, tool not found: a 500 and no cache write. -/
theorem search_miss_notFound (c : SearchCache) (q : String) (lim : Int)
    (hq : pyStrip q ≠ "") (hmiss : cacheGet c (searchKey q lim) = none) :
    search c q lim .notFound = (.toolMissing, c, true) := by
  simp [search, hq, hmiss]

/-- Cache miss, non-zero exit with falsy raw stdout: a 500 with stderr
attached and no cache write. -/
theorem search_miss_err (c : SearchCache) (q : String) (lim : Int)
    (r : JsonRun) (hq : pyStrip q ≠ "")
    (hmiss : cacheGet c (searchKey q lim) = none)
    (hg : r.returncode ≠ 0 ∧ r.stdoutTruthy = false) :
    search c q lim (.run r) = (.serverError r.stderr, c, true) := by
  simp [search, hq, hmiss, hg]

/-- Cache miss, parseable run (the error guard fails): the parsed response
is returned and written to the cache unconditionally, even when the parsed
results list is empty. -/
theorem search_miss_parse (c : SearchCache) (q : String) (lim : Int)
    (r : JsonRun) (hq : pyStrip q ≠ "")
    (hmiss : cacheGet c (searchKey q lim) = none)
    (hg : ¬(r.returncode ≠ 0 ∧ r.stdoutTruthy = false)) :
    search c q lim (.run r)
      = (.ok ⟨parseSongs r.stdout, pyStrip q⟩,
         cacheSet c (searchKey q lim) ⟨parseSongs r.stdout, pyStrip q⟩,
         true) := by
  simp [search, hq, hmiss, hg]

/-- After any search that returned a 200 response, that response is stored
in the resulting cache under the search key (whether it came from a cache
hit or from a fresh backend parse). -/
theorem search_ok_cacheGet (c : SearchCache) (q : String) (lim : Int)
    (b : Backend) (resp : SearchResponse)
    (h : (search c q lim b).1 = .ok resp) :
    cacheGet (search c q lim b).2.1 (searchKey q lim) = some resp := by
  have hq : pyStrip q ≠ "" := search_ok_strip_ne c q lim b resp h
  cases hget : cacheGet c (searchKey q lim) with
  | some r =>
    rw [search_hit c q lim b r hq hget] at h ⊢
    simp at h
    subst h
    exact hget
  | none =>
    cases b with
    | timeout =>
      rw [search_miss_timeout c q lim hq hget] at h
      simp at h
    | notFound =>
      rw [search_miss_notFound c q lim hq hget] at h
      simp at h
    | run r =>
      by_cases hg : r.returncode ≠ 0 ∧ r.stdoutTruthy = false
      · rw [search_miss_err c q lim r hq hget hg] at h
        simp at h
      · rw [search_miss_parse c q lim r hq hget hg] at h ⊢
        simp at h
        subst h
        exact cacheGet_set_self c (searchKey q lim) _

/-! ## Claim theorems -/

/-- Claim C1 is false as stated: search caches its response even when the
results list is empty.  With an empty cache and a backend run that exits 0
with empty stdout (the backends returned nothing), the cache afterwards
holds the entry `"q_10" ↦ {results := [], query := "q"}` — a stored entry
with an empty results list — and a repeated identical search does NOT
re-invoke the backends (invoked-flag false). -/
theorem C1_empty_cached_counterexample :
    cacheGet (search [] "q" 10 (.run ⟨0, false, [.empty], ""⟩)).2.1 "q_10"
        = some ⟨[], "q"⟩ ∧
      (search (search [] "q" 10 (.run ⟨0, false, [.empty], ""⟩)).2.1 "q" 10
        (.run ⟨0, false, [.empty], ""⟩)).2.2 = false := by
  constructor
  · decide
  · decide

/-- Claim C1 amended: search caches the parsed response unconditionally —
including one with an empty results list — and a repeated search for the
same (query, limit) is then answered from the cache without re-invoking the
backends, even when the first response was empty. -/
theorem C1_cache_unconditional (c : SearchCache) (q : String) (lim : Int)
    (r : JsonRun) (b' : Backend) (hq : pyStrip q ≠ "")
    (hmiss : cacheGet c (searchKey q lim) = none)
    (hok : ¬(r.returncode ≠ 0 ∧ r.stdoutTruthy = false)) :
    cacheGet (search c q lim (.run r)).2.1 (searchKey q lim)
        = some ⟨parseSongs r.stdout, pyStrip q⟩ ∧
      search (search c q lim (.run r)).2.1 q lim b'
        = (.ok ⟨parseSongs r.stdout, pyStrip q⟩,
           (search c q lim (.run r)).2.1, false) := by
  rw [search_miss_parse c q lim r hq hmiss hok]
  refine ⟨cacheGet_set_self c (searchKey q lim) _, ?_⟩
  exact search_hit _ q lim b' _ hq (cacheGet_set_self c (searchKey q lim) _)

/-- Witness for the amended C1 at a concrete empty backend response. -/
theorem C1_cache_unconditional_witness :
    cacheGet (search [] "q" 10 (.run ⟨0, false, [.empty], ""⟩)).2.1
        (searchKey "q" 10)
        = some ⟨parseSongs [.empty], pyStrip "q"⟩ ∧
      search (search [] "q" 10 (.run ⟨0, false, [.empty], ""⟩)).2.1 "q" 10
          .timeout
        = (.ok ⟨parseSongs [.empty], pyStrip "q"⟩,
           (search [] "q" 10 (.run ⟨0, false, [.empty], ""⟩)).2.1, false) :=
  C1_cache_unconditional [] "q" 10 ⟨0, false, [.empty], ""⟩ .timeout
    (by decide) (by decide) (by decide)

/-- Claim C2 is false as stated: the code's only validity check is
existence — the size > 10,000 bytes condition is not checked.  With a
cached file of only 5 bytes, download serves it from the cache with no
external call, even though 5 ≤ 10,000. -/
theorem C2_size_check_counterexample :
    download_audio [("abc.mp3", 5)] "abc" ⟨0, "t", ""⟩ ⟨0, "", ""⟩ []
        = (.cached "abc.mp3" "abc.mp3", []) ∧
      fileSize [("abc.mp3", 5)] "abc.mp3" = some 5 ∧ ¬ (5 > 10000) := by
  constructor
  · decide
  · constructor
    · decide
    · decide

/-- Claim C2 amended: fetch is cache-first under bare existence: whenever
the cached audio file for the id exists — regardless of its size — download
returns the cached artifact immediately and makes no external call;
existence is the only validity condition. -/
theorem C2_cache_hit_exists_only (fs : FileSys) (vid : String)
    (t e : TextRun) (fs' : FileSys)
    (h : fileExists fs (vid ++ ".mp3") = true) :
    download_audio fs vid t e fs'
      = (.cached (vid ++ ".mp3") (vid ++ ".mp3"), []) := by
  simp [download_audio, h]

/-- Witness for the amended C2 at a concrete 1-byte cached file. -/
theorem C2_cache_hit_exists_only_witness :
    download_audio [("x.mp3", 1)] "x" ⟨0, "", ""⟩ ⟨0, "", ""⟩ []
      = (.cached ("x" ++ ".mp3") ("x" ++ ".mp3"), []) :=
  C2_cache_hit_exists_only [("x.mp3", 1)] "x" ⟨0, "", ""⟩ ⟨0, "", ""⟩ []
    (by decide)

/-- Claim C3 is false as stated: when the extraction attempt fails (exit 1)
download reports failure immediately; the calls made are exactly the
get-title call and the extraction call — no direct-URL fallback call is
among them. -/
theorem C3_no_fallback_counterexample :
    download_audio [] "abc" ⟨0, "t", ""⟩ ⟨1, "", "err"⟩ []
        = (.failed "err", [.getTitle "abc", .extract "abc"]) ∧
      ExtCall.getUrl "abc" ∉ [ExtCall.getTitle "abc", ExtCall.extract "abc"] := by
  constructor
  · decide
  · decide

/-- Claim C3 amended: when the extraction attempt fails, download reports
DownloadFailed immediately, carrying the tool's stderr, having made only
the get-title and extraction calls and no direct-URL fallback call; a
direct best-audio stream URL is obtained only through the separate stream
endpoint, which returns it whenever its own single external call succeeds. -/
theorem C3_fail_fast_no_fallback (fs : FileSys) (vid : String)
    (t e : TextRun) (fs' : FileSys)
    (hmiss : fileExists fs (vid ++ ".mp3") = false)
    (hfail : e.returncode ≠ 0) :
    download_audio fs vid t e fs'
        = (.failed e.stderr, [.getTitle vid, .extract vid]) ∧
      ∀ s : TextRun, s.returncode = 0 →
        stream_audio vid s
          = .ok (((pyStrip s.stdout).splitOn "\n").headD "") vid := by
  constructor
  · simp [download_audio, hmiss, hfail]
  · intro s hs
    simp [stream_audio, hs]

/-- Witness for the amended C3 at a concrete failing extraction. -/
theorem C3_fail_fast_no_fallback_witness :
    download_audio [] "v" ⟨0, "t", ""⟩ ⟨1, "", "boom"⟩ []
        = (.failed "boom", [.getTitle "v", .extract "v"]) ∧
      ∀ s : TextRun, s.returncode = 0 →
        stream_audio "v" s
          = .ok (((pyStrip s.stdout).splitOn "\n").headD "") "v" :=
  C3_fail_fast_no_fallback [] "v" ⟨0, "t", ""⟩ ⟨1, "", "boom"⟩ []
    (by decide) (by decide)

/-- Claim C4 is false as stated: a backend failure that exits non-zero with
no output is raised to the caller as a 500 error response (carrying
stderr), not absorbed as an empty successful result. -/
theorem C4_failure_surfaced_counterexample :
    search [] "q" 10 (.run ⟨1, false, [.empty], "boom"⟩)
      = (.serverError "boom", [], true) := by
  decide

/-- Claim C4 amended: on a cache miss, a backend failure that exits
non-zero with empty raw stdout is surfaced as a 500 carrying stderr, and a
timeout as a 504 — neither is absorbed; a non-zero exit that still produced
stdout is absorbed (the output is parsed and returned as success), and
malformed output lines are absorbed line by line, so a run whose lines all
fail to parse yields an empty successful result set. -/
theorem C4_failure_handling (c : SearchCache) (q : String) (lim : Int)
    (e : String) (ls : List Line) (hq : pyStrip q ≠ "")
    (hmiss : cacheGet c (searchKey q lim) = none) :
    search c q lim (.run ⟨1, false, [.empty], e⟩) = (.serverError e, c, true) ∧
      search c q lim .timeout = (.timedOut, c, true) ∧
      (search c q lim (.run ⟨1, true, ls, e⟩)).1
        = .ok ⟨parseSongs ls, pyStrip q⟩ ∧
      (search c q lim (.run ⟨0, true, Line.malformed :: ls, e⟩)).1
        = .ok ⟨parseSongs ls, pyStrip q⟩ := by
  refine ⟨search_miss_err c q lim _ hq hmiss (by simp),
    search_miss_timeout c q lim hq hmiss, ?_, ?_⟩
  · rw [search_miss_parse c q lim _ hq hmiss (by simp)]
  · rw [search_miss_parse c q lim _ hq hmiss (by simp)]
    simp [parseSongs]

/-- Witness for the amended C4 at a concrete query and line list. -/
theorem C4_failure_handling_witness :
    search [] "q" 10 (.run ⟨1, false, [.empty], "boom"⟩)
        = (.serverError "boom", [], true) ∧
      search [] "q" 10 .timeout = (.timedOut, [], true) ∧
      (search [] "q" 10 (.run ⟨1, true, [.malformed], "boom"⟩)).1
        = .ok ⟨parseSongs [.malformed], pyStrip "q"⟩ ∧
      (search [] "q" 10 (.run ⟨0, true, Line.malformed :: [.malformed], "boom"⟩)).1
        = .ok ⟨parseSongs [.malformed], pyStrip "q"⟩ :=
  C4_failure_handling [] "q" 10 "boom" [.malformed] (by decide) (by decide)

/-- Claim C5, confirmed: if a search for (q, lim) returned a 200 response
with a non-empty results list, repeating the same search against the
resulting cache returns the identical SearchResult taken unchanged from the
cache, leaves the cache unchanged, and does not invoke any backend,
whatever the backend would have answered. -/
theorem C5_cache_hit_replay (c : SearchCache) (q : String) (lim : Int)
    (b b' : Backend) (resp : SearchResponse)
    (h : (search c q lim b).1 = .ok resp) (hne : resp.results ≠ []) :
    search (search c q lim b).2.1 q lim b'
      = (.ok resp, (search c q lim b).2.1, false) :=
  search_hit _ q lim b' resp (search_ok_strip_ne c q lim b resp h)
    (search_ok_cacheGet c q lim b resp h)

/-- Witness for C5 at a concrete one-track backend response. -/
theorem C5_cache_hit_replay_witness :
    search (search [] "q" 1
        (.run ⟨0, true, [.record (recWith "a" 120)], ""⟩)).2.1 "q" 1 .timeout
      = (.ok ⟨parseSongs [.record (recWith "a" 120)], pyStrip "q"⟩,
         (search [] "q" 1 (.run ⟨0, true, [.record (recWith "a" 120)], ""⟩)).2.1,
         false) :=
  C5_cache_hit_replay [] "q" 1 (.run ⟨0, true, [.record (recWith "a" 120)], ""⟩)
    .timeout ⟨parseSongs [.record (recWith "a" 120)], pyStrip "q"⟩
    (by decide) (by decide)

/-- Claim C6 is false as stated: search does NOT deduplicate.  With backend
identifiers [a, b, a, c] the identifiers of the search results are exactly
[a, b, a, c], not [a, b, c]. -/
theorem C6_search_no_dedup_counterexample :
    (search [] "q" 10 (.run ⟨0, true,
        [.record (recWith "a" 120), .record (recWith "b" 120),
         .record (recWith "a" 120), .record (recWith "c" 120)], ""⟩)).1.resultIds
        = [some "a", some "b", some "a", some "c"] ∧
      [some "a", some "b", some "a", some "c"]
        ≠ [some "a", some "b", some "c"] := by
  constructor
  · decide
  · decide

/-- Claim C6 amended: only playlist building deduplicates by track
identifier keeping the first occurrence — for backend identifiers
[a, b, a, c] (pairwise distinct) the playlist identifier sequence is
exactly [a, b, c] — while search performs no deduplication and returns the
identifier sequence [a, b, a, c] unchanged. -/
theorem C6_dedup_playlist_only (a b c : String)
    (hba : b ≠ a) (hca : c ≠ a) (hcb : c ≠ b) :
    (generate_playlist (fun _ => ⟨0, true,
        [.record (recWith a 120), .record (recWith b 120),
         .record (recWith a 120), .record (recWith c 120)], ""⟩)
        ["s"] 20).playlistIds
        = [some a, some b, some c] ∧
      (search [] "q" 10 (.run ⟨0, true,
        [.record (recWith a 120), .record (recWith b 120),
         .record (recWith a 120), .record (recWith c 120)], ""⟩)).1.resultIds
        = [some a, some b, some a, some c] := by
  constructor
  · simp [generate_playlist, parseCurated, recWith, mkCurated, dedupById,
      dedupGo, pySlice, PlaylistOutcome.playlistIds, hba, hca, hcb]
  · rw [search_miss_parse [] "q" 10 _ (by decide) (by decide) (by simp)]
    simp [SearchOutcome.resultIds, parseSongs, recWith, mkSong]

/-- Witness for the amended C6 at the concrete identifiers a, b, c. -/
theorem C6_dedup_playlist_only_witness :
    (generate_playlist (fun _ => ⟨0, true,
        [.record (recWith "a" 120), .record (recWith "b" 120),
         .record (recWith "a" 120), .record (recWith "c" 120)], ""⟩)
        ["s"] 20).playlistIds
        = [some "a", some "b", some "c"] ∧
      (search [] "q" 10 (.run ⟨0, true,
        [.record (recWith "a" 120), .record (recWith "b" 120),
         .record (recWith "a" 120), .record (recWith "c" 120)], ""⟩)).1.resultIds
        = [some "a", some "b", some "a", some "c"] :=
  C6_dedup_playlist_only "a" "b" "c" (by decide) (by decide) (by decide)

/-- Claim C7, confirmed: a record of duration 700 is excluded by the search
loop, the playlist/trending loop, the trending endpoint, and the playlist
endpoint; a record of duration 30 is excluded by the playlist/trending loop
but kept by the search loop, which has no lower bound. -/
theorem C7_duration_filter (r7 r3 : RawRecord) (ls : List Line)
    (h7 : r7.duration = some 700) (h3 : r3.duration = some 30) :
    parseSongs (.record r7 :: ls) = parseSongs ls ∧
      parseCurated (.record r7 :: ls) = parseCurated ls ∧
      parseCurated (.record r3 :: ls) = parseCurated ls ∧
      parseSongs (.record r3 :: ls) = mkSong r3 30 :: parseSongs ls ∧
      trending ⟨0, true, .record r7 :: ls, ""⟩ = trending ⟨0, true, ls, ""⟩ ∧
      generate_playlist (fun _ => ⟨0, true, .record r7 :: ls, ""⟩) ["s"] 20
        = generate_playlist (fun _ => ⟨0, true, ls, ""⟩) ["s"] 20 := by
  have hc7 : parseCurated (.record r7 :: ls) = parseCurated ls := by
    simp [parseCurated, h7]
  refine ⟨by simp [parseSongs, h7], hc7, by simp [parseCurated, h3],
    by simp [parseSongs, h3], by simp [trending, hc7], ?_⟩
  simp [generate_playlist, hc7]

/-- Witness for C7 at concrete records of duration 700 and 30. -/
theorem C7_duration_filter_witness :
    parseSongs [.record (recWith "x" 700)] = parseSongs [] ∧
      parseCurated [.record (recWith "x" 700)] = parseCurated [] ∧
      parseCurated [.record (recWith "y" 30)] = parseCurated [] ∧
      parseSongs [.record (recWith "y" 30)]
        = mkSong (recWith "y" 30) 30 :: parseSongs [] ∧
      trending ⟨0, true, [.record (recWith "x" 700)], ""⟩
        = trending ⟨0, true, [], ""⟩ ∧
      generate_playlist (fun _ => ⟨0, true, [.record (recWith "x" 700)], ""⟩)
          ["s"] 20
        = generate_playlist (fun _ => ⟨0, true, [], ""⟩) ["s"] 20 :=
  C7_duration_filter (recWith "x" 700) (recWith "y" 30) [] (by decide)
    (by decide)

/-- Claim C8, confirmed: for non-empty seeds and positive limit, the
generated playlist holds at most `limit` tracks, whatever the seeds'
backend runs return. -/
theorem C8_playlist_bounded (runner : String → JsonRun)
    (seeds : List String) (limit : Int)
    (hseeds : seeds ≠ []) (hlim : 0 < limit) :
    ∃ resp, generate_playlist runner seeds limit = .ok resp ∧
      (resp.playlist.length : Int) ≤ limit := by
  refine ⟨⟨pySlice (dedupById ((seeds.take 3).flatMap
      fun seed => parseCurated (runner seed).stdout)) limit, seeds⟩, ?_, ?_⟩
  · simp [generate_playlist, hseeds]
  · dsimp only
    have h1 : (pySlice (dedupById ((seeds.take 3).flatMap
        fun seed => parseCurated (runner seed).stdout)) limit).length
        ≤ limit.toNat := by
      rw [pySlice, if_pos hlim.le]
      exact List.length_take_le _ _
    omega

/-- Witness for C8 at one seed and limit 1. -/
theorem C8_playlist_bounded_witness :
    ∃ resp, generate_playlist (fun _ => ⟨0, true,
        [.record (recWith "a" 120), .record (recWith "b" 120)], ""⟩)
        ["s"] 1 = .ok resp ∧ (resp.playlist.length : Int) ≤ 1 :=
  C8_playlist_bounded (fun _ => ⟨0, true,
    [.record (recWith "a" 120), .record (recWith "b" 120)], ""⟩)
    ["s"] 1 (by decide) (by decide)

/-- Claim C9: the intended no-uncaught-fault boundary is violated by
get_info.  When the tool exits 0 but its stdout is not valid JSON, get_info
reaches the uncaught-exception outcome (its json.loads has no
JSONDecodeError handler, unlike the line loops of search, playlist and
trending, which absorb malformed lines as shown in the other conjuncts). -/
theorem C9_info_parse_uncaught :
    get_info ⟨0, none, ""⟩ = .uncaught ∧
      ∀ ls : List Line,
        parseSongs (Line.malformed :: ls) = parseSongs ls ∧
          parseCurated (Line.malformed :: ls) = parseCurated ls :=
  ⟨rfl, fun _ => ⟨rfl, rfl⟩⟩

/-- Claim C10, confirmed: the bounds are strict and differ at the boundary:
duration exactly 600 is kept by the search loop (600 > 600 is false) but
excluded by the playlist/trending loop (600 < 600 is false), and duration
exactly 60 is excluded by the playlist/trending loop (60 < 60 is false). -/
theorem C10_boundary_strictness (r6 r1 : RawRecord) (ls : List Line)
    (hd6 : r6.duration = some 600) (hd1 : r1.duration = some 60) :
    parseSongs (.record r6 :: ls) = mkSong r6 600 :: parseSongs ls ∧
      parseCurated (.record r6 :: ls) = parseCurated ls ∧
      parseCurated (.record r1 :: ls) = parseCurated ls := by
  refine ⟨?_, ?_, ?_⟩
  · simp [parseSongs, hd6]
  · simp [parseCurated, hd6]
  · simp [parseCurated, hd1]

/-- Witness for C10 at concrete records of duration 600 and 60. -/
theorem C10_boundary_strictness_witness :
    parseSongs [.record (recWith "x" 600)]
        = mkSong (recWith "x" 600) 600 :: parseSongs [] ∧
      parseCurated [.record (recWith "x" 600)] = parseCurated [] ∧
      parseCurated [.record (recWith "y" 60)] = parseCurated [] :=
  C10_boundary_strictness (recWith "x" 600) (recWith "y" 60) [] (by decide)
    (by decide)

end SoundWave

